import Mathlib

/- Shallow embedding of src/src/kpackage/packageloader.cpp (KPackage::PackageLoader)
   together with the declarations of src/unnamed (packageloader.h). External
   collaborators (KPluginMetaData, KPluginLoader, QFile, QJsonDocument) are
   abstracted at the boundary: a plugin directory is given by its decoded
   contents, and dynamic module loading by an environment function from module
   file names to factory outcomes. -/

namespace KPackage

/-- Plugin metadata record (boundary abstraction of KPluginMetaData): module or
descriptor file location, plugin identifier, declared service types, and the
validity bit of isValid. -/
structure PluginRecord where
  fileName : String
  pluginId : String
  serviceTypes : List String
  valid : Bool
deriving DecidableEq

/-- Contents of one candidate plugin directory probed by loadPackageStructure
(packageloader.cpp lines 291-321): index is some records when kpluginindex.json
exists there and decodes to those records; found holds the results of
KPluginLoader::findPlugins for the directory, consulted only when no index file
exists. -/
structure PluginDir where
  index : Option (List PluginRecord)
  found : List PluginRecord
deriving DecidableEq

/-- Outcome of KPluginLoader(fileName).factory() followed by factory->create
(lines 326-334): no factory available (module not loadable or without a
factory), factory present but create returned null, or create succeeded
producing a structure whose declared default package root is the given
string. -/
inductive FactoryOutcome where
  | noFactory : FactoryOutcome
  | createFails : FactoryOutcome
  | createSucceeds : String → FactoryOutcome
deriving DecidableEq

/-- An instantiated PackageStructure. hid is the allocation identity (each new
GenericPackage and each successful factory create yields a fresh one),
isGeneric marks the built-in GenericPackage, root is the declared default
package root of the structure. -/
structure Handler where
  hid : Nat
  isGeneric : Bool
  root : String
deriving DecidableEq

/-- Contents of one directory datadir/actualRoot probed by listPackages
(lines 217-261): index as in PluginDir; files holds the records parsed from
the metadata.desktop descriptor files of the recursive scan, in iteration
order. -/
structure DataDirContent where
  index : Option (List PluginRecord)
  files : List PluginRecord
deriving DecidableEq

/-- Filesystem and plugin environment, fixed across calls: the candidate
plugin directories (one per QCoreApplication::libraryPaths entry, suffixed
with kpackage/packagestructure, in search order, lines 276-287), the factory
outcome per module file name, the default package root declared by
GenericPackage (its class is in private/packages_p.h, outside the given
sources), the standard data locations of QStandardPaths, and the data
filesystem keyed by full directory path. -/
structure Env where
  libraryPaths : List PluginDir
  factory : String → FactoryOutcome
  genericRoot : String
  dataLocations : List String
  fs : List (String × DataDirContent)

/-- Instrumentation for one call: number of index-file reads, of live
directory enumerations, and of module-load attempts. -/
structure Counts where
  indexReads : Nat
  dirScans : Nat
  moduleLoads : Nat
deriving DecidableEq

/-- Loader private state (PackageLoaderPrivate): the structures cache, a QHash
of QPointer values (a stored none models a null pointer), plus the allocation
counter used to give fresh identities to newly constructed handlers. External
destruction of a cached handler is not exercised by the claims, so a live
pointer is modelled as a stored some. -/
structure LoaderState where
  structures : List (String × Option Handler)
  nextId : Nat
deriving DecidableEq

/-- QHash::insert semantics: replaces any previous entry for the key. -/
def cacheInsert (c : List (String × Option Handler)) (k : String) (v : Option Handler) :
    List (String × Option Handler) :=
  (k, v) :: c.filter (fun p => !(p.1 == k))

/-- Models d->structures.value(format).data() (lines 193 and 269):
QHash::value returns a default null QPointer when the key is absent, and
data() is null for a null pointer. -/
def cacheGet (c : List (String × Option Handler)) (k : String) : Option Handler :=
  (c.lookup k).getD none

/-- One iteration of the discovery loop of loadPackageStructure over a
candidate plugin directory (lines 291-321). acc carries the pluginFileName
found so far and the instrumentation counts. If the index file exists it is
read and the first record whose plugin identifier equals the format overwrites
pluginFileName (the inner break stops at the first record of this directory);
otherwise the directory is enumerated via findPlugins and matched the same
way. In both branches pluginFileName keeps its previous value when this
directory has no match, and the loop then continues with the next directory
regardless. -/
def scanDir (format : String) (acc : String × Counts) (dir : PluginDir) : String × Counts :=
  match dir.index with
  | some records =>
      (match records.find? (fun r => r.pluginId == format) with
       | some r => r.fileName
       | none => acc.1,
       { acc.2 with indexReads := acc.2.indexReads + 1 })
  | none =>
      (match dir.found.find? (fun r => r.pluginId == format) with
       | some r => r.fileName
       | none => acc.1,
       { acc.2 with dirScans := acc.2.dirScans + 1 })

/-- The full discovery loop of loadPackageStructure (lines 289-322): fold over
all candidate plugin directories in search-path order, starting from an empty
pluginFileName. -/
def discover (env : Env) (format : String) : String × Counts :=
  env.libraryPaths.foldl (scanDir format) ("", ⟨0, 0, 0⟩)

/-- The instantiation step of loadPackageStructure (lines 324-335): when a
non-empty pluginFileName was recorded, load the module and ask its factory for
a structure. A missing factory leaves the previously computed structure in
place; a factory whose create returns null overwrites it with null; a
successful create overwrites it with a freshly allocated handler. -/
def instantiate (env : Env) (s1 : Option Handler) (nid : Nat) (fileName : String)
    (c : Counts) : Option Handler × Nat × Counts :=
  if fileName == "" then (s1, nid, c)
  else
    match env.factory fileName with
    | .noFactory => (s1, nid, { c with moduleLoads := c.moduleLoads + 1 })
    | .createFails => (none, nid, { c with moduleLoads := c.moduleLoads + 1 })
    | .createSucceeds root =>
        (some ⟨nid, false, root⟩, nid + 1, { c with moduleLoads := c.moduleLoads + 1 })

/-- The cache read and built-in generic construction at the start of
loadPackageStructure (lines 269-274): take the cached structure; when the
slot is empty and the format is the reserved generic identifier, construct a
fresh GenericPackage. Returns the structure so far and the next free
allocation identity. -/
def structureFromCache (env : Env) (st : LoaderState) (format : String) :
    Option Handler × Nat :=
  match cacheGet st.structures format with
  | some h => (some h, st.nextId)
  | none =>
      if format == "KPackage/Generic" then
        (some ⟨st.nextId, true, env.genericRoot⟩, st.nextId + 1)
      else (none, st.nextId)

/-- The body of loadPackageStructure before the final cache insert
(lines 269-335): read the cache slot with the generic shortcut, then always
run the discovery loop and the instantiation step. Returns the resulting
structure, the next free allocation identity, and the counts of the call. -/
def resolveStructure (env : Env) (st : LoaderState) (format : String) :
    Option Handler × Nat × Counts :=
  instantiate env (structureFromCache env st format).1 (structureFromCache env st format).2
    (discover env format).1 (discover env format).2

/-- PackageLoader::loadPackageStructure (lines 267-345): resolve the structure
and insert the result, possibly null, into the cache under the format
(line 342). -/
def loadPackageStructure (env : Env) (st : LoaderState) (format : String) :
    Option Handler × LoaderState × Counts :=
  let r := resolveStructure env st format
  (r.1, ⟨cacheInsert st.structures format r.1, r.2.1⟩, r.2.2)

/-- Modelled from the spec: the Package value class lives in package.cpp,
which is not among the given sources; per section 3 it is a lightweight value
wrapping a StructureHandler reference plus an optional root-path override. -/
structure Package where
  struct : Option Handler
  path : String
deriving DecidableEq

/-- Modelled from the spec: Package() wraps no structure handler; validity
must be checked by the caller (section 4.1). -/
def Package.invalid : Package := ⟨none, ""⟩

/-- Modelled from the spec: a package has a valid structure exactly when it
wraps a structure handler (package.cpp is not among the given sources). -/
def Package.hasValidStructure (p : Package) : Bool := p.struct.isSome

/-- Modelled from the spec: setPath applies an explicit path to the package
value. -/
def Package.setPath (p : Package) (s : String) : Package := { p with path := s }

/-- Modelled from the spec: defaultPackageRoot is the default root declared by
the wrapped structure handler (package.cpp is not among the given sources). -/
def Package.defaultPackageRoot (p : Package) : String :=
  match p.struct with
  | some h => h.root
  | none => ""

/-- Behavioral identity of a PackageLoader object: whether it is the lazily
created default (d->isDefaultLoader, set only at line 145) and its virtual
internalLoadPackage implementation (the base implementation, lines 347-351,
returns Package()). -/
structure LoaderConf where
  isDefaultLoader : Bool
  hook : String → Package

/-- PackageLoader::loadPackage (lines 151-182): unless this loader is the
lazily created default, first consult the virtual internalLoadPackage hook; a
hook result with a valid structure gets the explicit path applied when that
path is non-empty and is returned at once. Otherwise an empty format returns
an invalid Package immediately; else the structure is resolved through
loadPackageStructure, wrapped when found, or an invalid Package is returned. -/
def loadPackage (ld : LoaderConf) (env : Env) (st : LoaderState) (format path : String) :
    Package × LoaderState × Counts :=
  let hookResult : Option Package :=
    if !ld.isDefaultLoader then
      let p := ld.hook format
      if p.hasValidStructure then some (if path == "" then p else p.setPath path) else none
    else none
  match hookResult with
  | some p => (p, st, ⟨0, 0, 0⟩)
  | none =>
      if format == "" then (Package.invalid, st, ⟨0, 0, 0⟩)
      else
        let r := loadPackageStructure env st format
        match r.1 with
        | some h =>
            (if path == "" then ⟨some h, ""⟩ else Package.setPath ⟨some h, ""⟩ path,
             r.2.1, r.2.2)
        | none => (Package.invalid, r.2.1, r.2.2)

/-- The structure resolution block at the start of listPackages
(lines 192-210, run only when no root was passed): take the cached structure;
when absent and the format is the reserved generic identifier construct a
GenericPackage; when still absent call loadPackageStructure. -/
def resolveForList (env : Env) (st : LoaderState) (format : String) :
    Option Handler × LoaderState × Counts :=
  let s1 : Option Handler × LoaderState :=
    match cacheGet st.structures format with
    | some h => (some h, st)
    | none =>
        if format == "KPackage/Generic" then
          (some ⟨st.nextId, true, env.genericRoot⟩, { st with nextId := st.nextId + 1 })
        else (none, st)
  match s1.1 with
  | some h => (some h, s1.2, ⟨0, 0, 0⟩)
  | none => loadPackageStructure env s1.2 format

/-- The actualRoot computation of listPackages (lines 189-214): when the
passed root is empty, resolve a structure, insert it into the cache when
found, and take its declared default package root; when still empty the
format itself becomes the root. -/
def computeActualRoot (env : Env) (st : LoaderState) (format root : String) :
    String × LoaderState × Counts :=
  let step1 : String × LoaderState × Counts :=
    if root == "" then
      let r := resolveForList env st format
      match r.1 with
      | some h =>
          (Package.defaultPackageRoot ⟨some h, ""⟩,
           { r.2.1 with structures := cacheInsert r.2.1.structures format (some h) },
           r.2.2)
      | none => ("", r.2.1, r.2.2)
    else (root, st, ⟨0, 0, 0⟩)
  if step1.1 == "" then (format, step1.2.1, step1.2.2) else step1

/-- The per-directory body of the listing loop of listPackages
(lines 218-261): when the index file exists, decode it and keep every valid
record; otherwise recursively scan for metadata.desktop files and keep the
valid records whose declared service types contain the format, the service
type test being skipped for an empty format. -/
def listAtContent (format : String) (content : DataDirContent) : List PluginRecord :=
  match content.index with
  | some records => records.filter (fun r => r.valid)
  | none =>
      content.files.filter
        (fun r => r.valid && (format == "" || r.serviceTypes.contains format))

/-- PackageLoader::listPackages (lines 184-265): compute the actual root, then
for every standard data location probe the directory location/actualRoot and
concatenate the per-directory results in search order. -/
def listPackages (env : Env) (st : LoaderState) (format root : String) :
    List PluginRecord × LoaderState × Counts :=
  let r := computeActualRoot env st format root
  (env.dataLocations.foldl
     (fun acc d =>
       acc ++ listAtContent format ((env.fs.lookup (d ++ "/" ++ r.1)).getD ⟨none, []⟩))
     [],
   r.2.1, r.2.2)

/-- Identity of an installed loader for the singleton model: the lazily
created default instance or an externally constructed loader. -/
inductive LoaderInst where
  | defaultLoader : LoaderInst
  | custom : Nat → LoaderInst
deriving DecidableEq

/-- PackageLoader::setPackageLoader (lines 127-136): assign the process-wide
singleton only when it is still unset; otherwise leave it unchanged. -/
def setPackageLoader (s : Option LoaderInst) (l : LoaderInst) : Option LoaderInst :=
  match s with
  | none => some l
  | some x => some x

/-- PackageLoader::self (lines 138-149): lazily construct the default loader
when the singleton is still unset, marking it as the default instance, and
return the installed singleton. -/
def selfLoader (s : Option LoaderInst) : LoaderInst × Option LoaderInst :=
  match s with
  | none => (.defaultLoader, some .defaultLoader)
  | some l => (l, some l)

/-- The empty loader state: empty structures cache and allocation counter
zero. -/
def initState : LoaderState := ⟨[], 0⟩

/-- Environment for C1: a single candidate plugin directory whose index lists
one record with plugin identifier foo.bar and module foo.so, whose factory
create succeeds. -/
def envC1 : Env :=
  ⟨[⟨some [⟨"foo.so", "foo.bar", [], true⟩], []⟩],
   fun f => if f == "foo.so" then .createSucceeds "r" else .noFactory,
   "generic-root", [], []⟩

/-- Environment for C2: two candidate plugin directories in search order, each
with an index record matching plugin identifier fmt but with different module
paths, both loadable. -/
def envC2 : Env :=
  ⟨[⟨some [⟨"a.so", "fmt", [], true⟩], []⟩, ⟨some [⟨"b.so", "fmt", [], true⟩], []⟩],
   fun f => if f == "a.so" then .createSucceeds "ra"
            else if f == "b.so" then .createSucceeds "rb" else .noFactory,
   "generic-root", [], []⟩

/-- Environment for C3: a single candidate plugin directory carrying an empty
index file and no plugin matching any format. -/
def envC3 : Env :=
  ⟨[⟨some [], []⟩], fun _ => .noFactory, "generic-root", [], []⟩

/-- Second environment for C3: a plugin record claims the reserved generic
identifier and its factory create fails. -/
def envC3b : Env :=
  ⟨[⟨some [⟨"evil.so", "KPackage/Generic", [], true⟩], []⟩],
   fun f => if f == "evil.so" then .createFails else .noFactory,
   "generic-root", [], []⟩

/-- Environment for C7: a single candidate plugin directory whose index lists
a record matching foo.bar with module foo.so, whose factory create fails. -/
def envC7 : Env :=
  ⟨[⟨some [⟨"foo.so", "foo.bar", [], true⟩], []⟩],
   fun f => if f == "foo.so" then .createFails else .noFactory,
   "generic-root", [], []⟩

/-- Trivial environment with no plugin directories, no loadable modules and no
data locations. -/
def trivialEnv : Env :=
  ⟨[], fun _ => .noFactory, "generic-root", [], []⟩

end KPackage

namespace KPackage

/-- Unfolding equation of loadPackageStructure in terms of its resolution body
and the unconditional cache insert. -/
theorem loadPackageStructure_eq (env : Env) (st : LoaderState) (format : String) :
    loadPackageStructure env st format
      = ((resolveStructure env st format).1,
         ⟨cacheInsert st.structures format (resolveStructure env st format).1,
          (resolveStructure env st format).2.1⟩,
         (resolveStructure env st format).2.2) := rfl

/-- Reading the cache slot just written by a QHash insert yields the inserted
value, also when that value is a null pointer. -/
theorem cacheGet_cacheInsert (c : List (String × Option Handler)) (k : String)
    (v : Option Handler) : cacheGet (cacheInsert c k v) k = v := by
  simp [cacheGet, cacheInsert, List.lookup]

/-- C4: the process-wide loader singleton is assigned at most once: an
explicit set installs a loader when none is installed, a second explicit set
leaves the installed singleton unchanged, and after the lazy creation done by
self a further explicit set is also a no-op. -/
theorem setPackageLoader_at_most_once (s : Option LoaderInst) (l l2 : LoaderInst) :
    (setPackageLoader s l).isSome = true
    ∧ setPackageLoader (setPackageLoader s l) l2 = setPackageLoader s l
    ∧ setPackageLoader (selfLoader s).2 l2 = (selfLoader s).2 := by
  cases s <;> simp [setPackageLoader, selfLoader]

/-- C8: in both discovery mechanisms a directory that carries an index file is
handled exclusively through the index: the loadPackageStructure step ignores
the findPlugins contents of such a directory and bumps only the index-read
count, and the listPackages body ignores the descriptor files of such a
directory and returns exactly the valid index records, even when the index is
empty. -/
theorem index_excludes_scan (format pf : String) (c : Counts)
    (idx found1 found2 files1 files2 : List PluginRecord) :
    scanDir format ⟨pf, c⟩ ⟨some idx, found1⟩ = scanDir format ⟨pf, c⟩ ⟨some idx, found2⟩
    ∧ (scanDir format ⟨pf, c⟩ ⟨some idx, found1⟩).2
        = { c with indexReads := c.indexReads + 1 }
    ∧ listAtContent format ⟨some idx, files1⟩ = listAtContent format ⟨some idx, files2⟩
    ∧ listAtContent format ⟨some idx, files1⟩ = idx.filter (fun q => q.valid) :=
  ⟨rfl, rfl, rfl, rfl⟩

/-- C10: the service-type filter of listPackages acts only in the scan branch:
the index branch keeps every valid record, so a valid record whose service
types do not mention the non-empty requested format is listed when it comes
from an index but dropped when it comes from a directory scan. -/
theorem index_listing_ignores_serviceTypes (format : String)
    (idx files : List PluginRecord) (r : PluginRecord)
    (hv : r.valid = true) (hs : r.serviceTypes.contains format = false)
    (hf : format ≠ "") :
    listAtContent format ⟨some idx, files⟩ = idx.filter (fun q => q.valid)
    ∧ r ∈ listAtContent format ⟨some [r], []⟩
    ∧ r ∉ listAtContent format ⟨none, [r]⟩ := by
  refine ⟨rfl, ?_, ?_⟩
  · simp [listAtContent, hv]
  · have hs2 : format ∉ r.serviceTypes := by simpa using hs
    simp [listAtContent, hv, hs2, hf]

/-- Witness for C10 at a concrete input: a valid record with service type list
Other/Type is listed from an index under format My/Format but not from a
scan. -/
theorem index_listing_ignores_serviceTypes_witness :
    (⟨"f.so", "pid", ["Other/Type"], true⟩ : PluginRecord)
      ∈ listAtContent "My/Format" ⟨some [⟨"f.so", "pid", ["Other/Type"], true⟩], []⟩
    ∧ (⟨"f.so", "pid", ["Other/Type"], true⟩ : PluginRecord)
      ∉ listAtContent "My/Format" ⟨none, [⟨"f.so", "pid", ["Other/Type"], true⟩]⟩ :=
  ⟨(index_listing_ignores_serviceTypes "My/Format" [] []
      ⟨"f.so", "pid", ["Other/Type"], true⟩ (by decide) (by decide) (by decide)).2.1,
   (index_listing_ignores_serviceTypes "My/Format" [] []
      ⟨"f.so", "pid", ["Other/Type"], true⟩ (by decide) (by decide) (by decide)).2.2⟩

/-- C1 at its failing input: with one plugin directory whose index matches
format foo.bar and a working factory, the first call returns the handler with
identity 0, but the second call does not return the cached handler: it
re-reads the index, re-loads the module, and returns a freshly created handler
with identity 1. -/
theorem loadPackageStructure_second_call_not_cached :
    (loadPackageStructure envC1 initState "foo.bar").1 = some ⟨0, false, "r"⟩
    ∧ (loadPackageStructure envC1
        (loadPackageStructure envC1 initState "foo.bar").2.1 "foo.bar").1
        = some ⟨1, false, "r"⟩
    ∧ (loadPackageStructure envC1
        (loadPackageStructure envC1 initState "foo.bar").2.1 "foo.bar").2.2
        = ⟨1, 0, 1⟩ := by
  decide

/-- C2 at its failing input: with two candidate directories whose indexes both
match format fmt, discovery consults both directories (two index reads) and
the recorded module path is b.so from the second directory, so instantiation
uses the later match, not the first one. -/
theorem loadPackageStructure_last_dir_wins :
    discover envC2 "fmt" = ("b.so", ⟨2, 0, 0⟩)
    ∧ (loadPackageStructure envC2 initState "fmt").1 = some ⟨0, false, "rb"⟩ := by
  decide

/-- C3 at its failing input: resolving the reserved generic identifier does
return and cache the built-in generic handler, but it still reads the index
file of the candidate plugin directory (one index read, hence filesystem
discovery is not bypassed); moreover with a plugin record that claims the
reserved identifier and a failing factory the call returns null instead of the
built-in handler. -/
theorem generic_resolution_touches_filesystem :
    (loadPackageStructure envC3 initState "KPackage/Generic").1
      = some ⟨0, true, "generic-root"⟩
    ∧ cacheGet (loadPackageStructure envC3 initState "KPackage/Generic").2.1.structures
        "KPackage/Generic" = some ⟨0, true, "generic-root"⟩
    ∧ (loadPackageStructure envC3 initState "KPackage/Generic").2.2.indexReads = 1
    ∧ (loadPackageStructure envC3b initState "KPackage/Generic").1 = none := by
  decide

/-- C7 counterexample: for an unresolvable format (index record matches but
the factory create fails) the second identical call does return null, but it
does not short-circuit at the cache check: it reads the index file again, so
its index-read count is not zero. -/
theorem negative_cache_reread_cex :
    (loadPackageStructure envC7 initState "foo.bar").1 = none
    ∧ (loadPackageStructure envC7
        (loadPackageStructure envC7 initState "foo.bar").2.1 "foo.bar").1 = none
    ∧ ¬ (loadPackageStructure envC7
        (loadPackageStructure envC7 initState "foo.bar").2.1 "foo.bar").2.2.indexReads
        = 0 := by
  decide

end KPackage

namespace KPackage

/-- C5: loadPackage consults the internalLoadPackage hook exactly when the
loader is not the lazily created default: for the default loader the result
does not depend on the hook at all, and for a non-default loader whose hook
yields a package with a valid structure that package is returned immediately
with the explicit path applied only when non-empty, the state untouched and
no resolution or discovery performed, for every format including the empty
one. -/
theorem loadPackage_hook_iff_not_default (env : Env) (st : LoaderState)
    (format path : String) (hk hk2 : String → Package) :
    loadPackage ⟨true, hk⟩ env st format path = loadPackage ⟨true, hk2⟩ env st format path
    ∧ ((hk format).hasValidStructure = true →
        loadPackage ⟨false, hk⟩ env st format path
          = (if path == "" then hk format else (hk format).setPath path, st, ⟨0, 0, 0⟩)) := by
  constructor
  · rfl
  · intro hv
    simp [loadPackage, hv]

/-- Witness for C5 at a concrete input: a non-default loader whose hook
produces a package with a valid structure gets that package back with the
path applied, the state untouched and zero counts, even for the empty
format. -/
theorem loadPackage_hook_witness :
    loadPackage ⟨false, fun _ => ⟨some ⟨7, false, "rr"⟩, ""⟩⟩ trivialEnv initState "" "p"
      = (⟨some ⟨7, false, "rr"⟩, "p"⟩, initState, ⟨0, 0, 0⟩) := by
  have h := (loadPackage_hook_iff_not_default trivialEnv initState "" "p"
      (fun _ => ⟨some ⟨7, false, "rr"⟩, ""⟩) (fun _ => ⟨some ⟨7, false, "rr"⟩, ""⟩)).2
      (by decide)
  rw [h]
  decide

/-- C6: when the hook path yields nothing (invalid hook result or default
loader), an empty format makes loadPackage return an invalid Package at once
with untouched state and no filesystem work, in every environment; and for a
non-empty format whose structure resolution yields null, loadPackage also
returns an invalid Package. The embedding is a total function, so failure is
reported by return value only. -/
theorem loadPackage_invalid_on_empty_or_unresolved (ld : LoaderConf) (env : Env)
    (st : LoaderState) (path : String) :
    (((ld.hook "").hasValidStructure = false ∨ ld.isDefaultLoader = true) →
       loadPackage ld env st "" path = (Package.invalid, st, ⟨0, 0, 0⟩))
    ∧ (∀ format, format ≠ "" →
        ((ld.hook format).hasValidStructure = false ∨ ld.isDefaultLoader = true) →
        (loadPackageStructure env st format).1 = none →
        (loadPackage ld env st format path).1 = Package.invalid) := by
  obtain ⟨b, hook⟩ := ld
  constructor
  · intro h
    rcases h with h | h
    · cases b
      · simp [loadPackage, h]
      · simp [loadPackage]
    · simp at h
      subst h
      simp [loadPackage]
  · intro format hf h hnone
    rcases h with h | h
    · cases b
      · simp [loadPackage, h, hf, hnone]
      · simp [loadPackage, hf, hnone]
    · simp at h
      subst h
      simp [loadPackage, hf, hnone]

/-- Loader configuration of the lazily created default loader: default flag
set, base hook returning Package(). -/
def defaultLd : LoaderConf := ⟨true, fun _ => Package.invalid⟩

/-- Witness for C6 at concrete inputs: on the default loader an empty format
returns the invalid package with untouched state, and an unresolvable
non-empty format returns the invalid package. -/
theorem loadPackage_invalid_witness :
    loadPackage defaultLd trivialEnv initState "" "some/path"
      = (Package.invalid, initState, ⟨0, 0, 0⟩)
    ∧ (loadPackage defaultLd trivialEnv initState "not.found" "").1 = Package.invalid :=
  ⟨(loadPackage_invalid_on_empty_or_unresolved defaultLd trivialEnv initState "some/path").1
      (Or.inr (by decide)),
   (loadPackage_invalid_on_empty_or_unresolved defaultLd trivialEnv initState "").2
      "not.found" (by decide) (Or.inr (by decide)) (by decide)⟩

/-- Helper for C7: when one instantiation step yields null, the same step
started from a null structure also yields null, with the same counts. -/
theorem instantiate_none_stable (env : Env) (s1 : Option Handler) (n1 n2 : Nat)
    (f : String) (c : Counts)
    (h : (instantiate env s1 n1 f c).1 = none) :
    (instantiate env none n2 f c).1 = none
    ∧ (instantiate env none n2 f c).2.2 = (instantiate env s1 n1 f c).2.2 := by
  unfold instantiate at h ⊢
  by_cases hf : (f == "") = true
  · have hf2 : f = "" := by simpa using hf
    subst hf2
    simp
  · simp only [if_neg hf] at h ⊢
    cases henv : env.factory f
    · exact ⟨rfl, rfl⟩
    · exact ⟨rfl, rfl⟩
    · rw [henv] at h
      simp at h

/-- Helper for C7: a null resolution result is stable: from any state whose
cache slot for the format is empty, resolution of a non-generic format that
previously yielded null yields null again, and performs exactly the same
discovery and module-load work. -/
theorem resolveStructure_none_stable (env : Env) (st st2 : LoaderState) (format : String)
    (hg : (format == "KPackage/Generic") = false)
    (h1 : (resolveStructure env st format).1 = none)
    (h2 : cacheGet st2.structures format = none) :
    (resolveStructure env st2 format).1 = none
    ∧ (resolveStructure env st2 format).2.2 = (resolveStructure env st format).2.2 := by
  have e2 : structureFromCache env st2 format = (none, st2.nextId) := by
    unfold structureFromCache
    rw [h2, hg]
    simp
  unfold resolveStructure
  rw [e2]
  exact instantiate_none_stable env _ _ st2.nextId _ _ h1

/-- C7 as amended: loadPackageStructure inserts its result into the cache
under the requested format unconditionally, including a null result; for a
non-generic format whose first call returned null, a second identical call
also returns null, but it does not short-circuit at the cache check: a cached
null pointer reads back as no structure, so the second call repeats the
discovery and module-load work of the first call exactly. -/
theorem cache_insert_unconditional_and_null_stable (env : Env) (st : LoaderState)
    (format : String) :
    cacheGet (loadPackageStructure env st format).2.1.structures format
      = (loadPackageStructure env st format).1
    ∧ (format ≠ "KPackage/Generic" →
        (loadPackageStructure env st format).1 = none →
        (loadPackageStructure env (loadPackageStructure env st format).2.1 format).1 = none
        ∧ (loadPackageStructure env (loadPackageStructure env st format).2.1 format).2.2
            = (loadPackageStructure env st format).2.2) := by
  have hins : ∀ st3 : LoaderState,
      cacheGet (loadPackageStructure env st3 format).2.1.structures format
        = (loadPackageStructure env st3 format).1 := by
    intro st3
    rw [loadPackageStructure_eq]
    exact cacheGet_cacheInsert st3.structures format (resolveStructure env st3 format).1
  refine ⟨hins st, ?_⟩
  intro hne h1
  have hg : (format == "KPackage/Generic") = false := beq_eq_false_iff_ne.mpr hne
  have h2 : cacheGet (loadPackageStructure env st format).2.1.structures format = none := by
    rw [hins st]
    exact h1
  have h1r : (resolveStructure env st format).1 = none := h1
  have hs := resolveStructure_none_stable env st
      (loadPackageStructure env st format).2.1 format hg h1r h2
  exact ⟨hs.1, hs.2⟩

/-- Witness for C7 at a concrete input: format foo.bar is unresolvable in the
environment with a failing factory, and by the amended theorem the second
call also returns null. -/
theorem cache_null_stable_witness :
    (("foo.bar" : String) ≠ "KPackage/Generic")
    ∧ (loadPackageStructure envC7 initState "foo.bar").1 = none
    ∧ (loadPackageStructure envC7 (loadPackageStructure envC7 initState "foo.bar").2.1
        "foo.bar").1 = none :=
  ⟨by decide, by decide,
   ((cache_insert_unconditional_and_null_stable envC7 initState "foo.bar").2
      (by decide) (by decide)).1⟩

end KPackage

namespace KPackage

/-- C9: when listPackages receives an empty root, the actual root is the
default package root declared by the structure resolved for the format, that
structure being inserted into the cache as a side effect; when no structure
resolves, or its declared root is empty, the format itself becomes the root;
and the listing probes the directory location/actualRoot under every standard
data location with that derived root. -/
theorem listPackages_root_derivation (env : Env) (st : LoaderState) (format : String) :
    (∀ h, (resolveForList env st format).1 = some h →
        computeActualRoot env st format ""
          = (if h.root == "" then format else h.root,
             { (resolveForList env st format).2.1 with
                 structures := cacheInsert (resolveForList env st format).2.1.structures
                   format (some h) },
             (resolveForList env st format).2.2))
    ∧ ((resolveForList env st format).1 = none →
        computeActualRoot env st format ""
          = (format, (resolveForList env st format).2.1, (resolveForList env st format).2.2))
    ∧ listPackages env st format ""
        = (env.dataLocations.foldl
             (fun acc d =>
               acc ++ listAtContent format
                 ((env.fs.lookup (d ++ "/" ++ (computeActualRoot env st format "").1)).getD
                   ⟨none, []⟩))
             [],
           (computeActualRoot env st format "").2.1,
           (computeActualRoot env st format "").2.2) := by
  refine ⟨?_, ?_, rfl⟩
  · intro h hsome
    by_cases hr : h.root = ""
    · simp [computeActualRoot, hsome, Package.defaultPackageRoot, hr]
    · simp [computeActualRoot, hsome, Package.defaultPackageRoot, hr]
  · intro hnone
    simp [computeActualRoot, hnone]

end KPackage

namespace KPackage

/-- Witness for C9 at a concrete input: with no structure resolvable for
format fmt.x in an environment without plugins, the derived root is the
format itself. -/
theorem listPackages_root_derivation_witness :
    (computeActualRoot trivialEnv initState "fmt.x" "").1 = "fmt.x" := by
  have h := (listPackages_root_derivation trivialEnv initState "fmt.x").2.1 (by decide)
  rw [h]

end KPackage
